import Mathlib

/-!
Shallow embedding of `src/entity_validator.py` (GraFlow repository).

Conventions of the embedding:
* Python floats are modelled as `ℚ`; the source's decimal literals `0.1`,
  `0.3`, `0.5`, `0.7`, `0.8` are written as the equal rationals `1/10`, ….
* Wall-clock elapsed time (`time.time() - start_time`) is an oracle: each
  `validate_entity` model takes the elapsed seconds `t : ℚ` as a parameter.
* The remote Groq chat-completions call is an oracle
  `api : String → Except String (Option String)`: `.error msg` models a raised
  exception (caught by the source's `try/except`, `msg` = `str(e)`), `.ok none`
  models a reply whose `content` is `None`, `.ok (some content)` a reply text.
* The NLI model is an oracle `entail : String → String → ℚ` giving the
  entailment probability `probs[2].item()` for a (premise, hypothesis) pair.
* `pandas` data frames become lists: the entity table is a `List Entity` in
  corpus order, the text-unit table an association list `Corpus`; the
  already-JSON-decoded checkpoint file is an `Option (List ValidationResult)`
  (`none` = the file does not exist).
* `entity_row['text_unit_ids']` is modelled after `get_source_texts` has
  normalised it to a sequence (the `isinstance(str)`/`json.loads` branch is a
  deserialisation detail).
* Python string predicates (`isalpha`, `upper`, …) are modelled by their ASCII
  behaviour, which agrees with Python on the ASCII inputs the claims use.
-/

namespace GraFlow

/-- Model of `entity_row`: one row of `entities.parquet` (columns used by the code). -/
structure Entity where
  id : String
  title : String
  type : String
  description : String
  text_unit_ids : List String
deriving DecidableEq

/-- Model of the `ValidationResult` dataclass from `entity_validator.py`. -/
structure ValidationResult where
  entity_id : String
  entity_name : String
  entity_type : String
  description : String
  confidence : ℚ
  is_hallucinated : Bool
  method : String
  issues : List String
  validation_time : ℚ
deriving DecidableEq

/-- Model of `self.text_unit_map`: text-unit id ↦ text, as an association list. -/
abbrev Corpus := List (String × String)

/-- Dictionary lookup `self.text_unit_map[tid]`. -/
def lookupTextUnit (corpus : Corpus) (tid : String) : Option String :=
  (corpus.find? (fun p => p.1 = tid)).map (fun p => p.2)

/-- Model of `EntityValidator.get_source_texts`: collect the texts of the entity's
text-unit ids, silently skipping ids missing from the map. -/
def get_source_texts (corpus : Corpus) (e : Entity) : List String :=
  e.text_unit_ids.filterMap (lookupTextUnit corpus)

/-! ### Python string helpers

All helpers are structurally recursive over character lists so that concrete
instances evaluate by kernel reduction (the core `String.splitOn`,
`String.trim`, … are compiled by well-founded recursion and do not). -/

/-- Membership of `pat` as a contiguous sublist of a character list (Python's
substring operator `pat in s`). -/
def charsOccur (pat : List Char) : List Char → Bool
  | [] => pat.isEmpty
  | c :: rest => pat.isPrefixOf (c :: rest) || charsOccur pat rest

/-- Python `pat in s` for strings (substring containment). -/
def strContains (s pat : String) : Bool :=
  charsOccur pat.data s.data

/-- Python `str.startswith(pre)`. -/
def pyStartsWith (s pre : String) : Bool :=
  pre.data.isPrefixOf s.data

/-- Python `str.lower()` (ASCII behaviour). -/
def pyLower (s : String) : String :=
  String.mk (s.data.map Char.toLower)

/-- Python `str.upper()` (ASCII behaviour). -/
def pyUpper (s : String) : String :=
  String.mk (s.data.map Char.toUpper)

/-- Python `str.strip()` with no argument: drop whitespace from both ends. -/
def pyTrim (s : String) : String :=
  String.mk (((s.data.dropWhile Char.isWhitespace).reverse.dropWhile
    Char.isWhitespace).reverse)

/-- Helper for `pySplitWs`: accumulate the current word (reversed) while
scanning. -/
def pySplitWsAux : List Char → List Char → List String
  | acc, [] => if acc.isEmpty then [] else [String.mk acc.reverse]
  | acc, c :: rest =>
      if c.isWhitespace then
        if acc.isEmpty then pySplitWsAux [] rest
        else String.mk acc.reverse :: pySplitWsAux [] rest
      else pySplitWsAux (c :: acc) rest

/-- Python `str.split()` with no argument: split on whitespace runs,
discarding empty pieces. -/
def pySplitWs (s : String) : List String :=
  pySplitWsAux [] s.data

/-- Helper for `pySplitChar`. -/
def pySplitCharAux (sep : Char) : List Char → List Char → List String
  | acc, [] => [String.mk acc.reverse]
  | acc, c :: rest =>
      if c = sep then String.mk acc.reverse :: pySplitCharAux sep [] rest
      else pySplitCharAux sep (c :: acc) rest

/-- Python `str.split(sep)` for a one-character separator (every separator
used by the source — newline, dot, colon — is one character), keeping empty
pieces. -/
def pySplitChar (sep : Char) (s : String) : List String :=
  pySplitCharAux sep [] s.data

/-- Python `str.strip(chars)`: drop characters of `cs` from both ends. -/
def pyStrip (cs : List Char) (s : String) : String :=
  String.mk (((s.data.dropWhile cs.contains).reverse.dropWhile cs.contains).reverse)

/-- Python `str.isalpha()` (ASCII behaviour). -/
def pyIsAlpha (s : String) : Bool :=
  s ≠ "" && s.data.all Char.isAlpha

/-- Value of a digit list read in base 10. -/
def digitsVal (l : List Char) : ℕ :=
  l.foldl (fun a c => 10 * a + (c.toNat - 48)) 0

/-- Whether every character of a string is a decimal digit. -/
def allDigits (s : String) : Bool :=
  s.data.all Char.isDigit

/-- Python `float(s)` restricted to plain decimal literals with an optional
sign and an optional decimal point (the only forms the source's replies use);
other inputs give `none`, which the caller's `except` clause turns into `0.0`.
Exponent forms, `inf`/`nan` and underscores are outside the claims' scope. -/
def pyFloat (s : String) : Option ℚ :=
  if s = "" then none else
  let signed : ℚ × String :=
    if pyStartsWith s "-" then (-1, s.drop 1)
    else if pyStartsWith s "+" then (1, s.drop 1)
    else (1, s)
  match pySplitChar '.' signed.2 with
  | [intPart] =>
      if intPart ≠ "" ∧ allDigits intPart then
        some (signed.1 * (digitsVal intPart.data : ℚ))
      else none
  | [intPart, fracPart] =>
      if (intPart ≠ "" ∨ fracPart ≠ "") ∧ allDigits intPart ∧ allDigits fracPart then
        some (signed.1 * ((digitsVal intPart.data : ℚ) +
          (digitsVal fracPart.data : ℚ) / (10 : ℚ) ^ fracPart.length))
      else none
  | _ => none

/-- Python `f"{q:.1%}"` for a non-negative rational (rounding of exact ties
differs from Python's round-half-even; no claim exercises a tie). -/
def fmtRatPct1 (q : ℚ) : String :=
  let n : ℕ := (⌊q * 1000 + 1/2⌋).toNat
  toString (n / 10) ++ "." ++ toString (n % 10) ++ "%"

/-- Python `f"{q:.2f}"` for a non-negative rational (same tie caveat). -/
def fmtRat2f (q : ℚ) : String :=
  let n : ℕ := (⌊q * 100 + 1/2⌋).toNat
  toString (n / 100) ++ "." ++ (if n % 100 < 10 then "0" else "") ++ toString (n % 100)

/-! ### GroqEntityValidator (LLM-prompt scorer) -/

/-- Mutable state of the line-scanning loop in
`GroqEntityValidator._parse_api_response` (`supported`, `raw_confidence`,
`issues`, with their initial values as the loop's entry state). -/
structure ParseState where
  supported : Bool
  raw_confidence : ℚ
  issues : List String
deriving DecidableEq

/-- One iteration of the `for line in lines` loop of `_parse_api_response`. -/
def parse_line (st : ParseState) (line0 : String) : ParseState :=
  let line := pyTrim line0
  if pyStartsWith line "SUPPORTED:" then
    { st with supported := strContains (pyUpper line) "YES" }
  else if pyStartsWith line "CONFIDENCE:" then
    let conf_str := pyTrim ((pySplitChar ':' line).getD 1 "")
    { st with raw_confidence := (((pySplitWs conf_str).head?).bind pyFloat).getD 0 }
  else if pyStartsWith line "ISSUES:" then
    let issues_text := pyTrim (line.drop 7)
    if ¬ (pyLower issues_text ∈ (["none", "none.", ""] : List String)) then
      { st with issues := [issues_text] }
    else st
  else st

/-- The scanning phase of `_parse_api_response`: fold `parse_line` over
`response.strip().split(chr(10))` from the initial state
`supported=True, raw_confidence=0.0, issues=[]`. -/
def parse_state (response : String) : ParseState :=
  (pySplitChar '\n' (pyTrim response)).foldl parse_line ⟨true, 0, []⟩

/-- Model of the private parse method of `GroqEntityValidator`: scan the lines, then reconcile
the raw confidence against the SUPPORTED flag. Returns
`(confidence, is_hallucinated, issues)`. -/
def parse_api_response (response : String) : ℚ × Bool × List String :=
  let st := parse_state response
  let confidence : ℚ :=
    if st.supported then
      if st.raw_confidence > 1/2 then 1/10 else st.raw_confidence
    else
      if st.raw_confidence < 1/2 then 8/10 else st.raw_confidence
  (confidence, ! st.supported, st.issues)

/-- Model of the prompt builder of `GroqEntityValidator` (the static prose is
carried verbatim up to whitespace layout; only its concatenation structure
matters to the claims). -/
def build_validation_prompt (name entity_type description : String)
    (source_texts : List String) : String :=
  let context := String.intercalate "\n\n---\n\n" (source_texts.take 3)
  "You are validating whether an entity description is supported by the source documents.\n\nENTITY INFORMATION:\n- Name: " ++ name ++ "\n- Type: " ++ entity_type ++ "\n- Description: " ++ description ++ "\n\nSOURCE DOCUMENTS:\n" ++ context ++ "\n\nTASK:\nCarefully check if the entity description is factually supported by the source documents. Look for:\n1. Does the entity name appear in the source documents?\n2. Is the entity type correct based on context?\n3. Are the claims in the description supported by the source text?\n4. Is there any information in the description that contradicts or isn\x27t mentioned in the sources?\n\nRespond in this exact format:\nSUPPORTED: [YES/NO]\nCONFIDENCE: [0.0-1.0, where 1.0 means definitely hallucinated]\nISSUES: [List specific problems, or \"None\" if description is accurate]\n\nBe specific about any unsupported claims."

/-- Model of `GroqEntityValidator.validate_entity`. Here `api` models the chat-completions
call (already composed with extracting `choices[0].message.content`), `t` the
elapsed wall-clock time. -/
def groq_validate_entity (api : String → Except String (Option String))
    (corpus : Corpus) (e : Entity) (t : ℚ) : ValidationResult :=
  let source_texts := get_source_texts corpus e
  if source_texts.isEmpty then
    ⟨e.id, e.title, e.type, e.description, 0, false, "groq",
      ["No source texts available"], t⟩
  else
    let prompt := build_validation_prompt e.title e.type e.description source_texts
    let parsed : ℚ × Bool × List String :=
      match api prompt with
      | .error msg => (0, false, ["API error: " ++ msg])
      | .ok none => (0, false, ["API error: API returned empty response"])
      | .ok (some content) => parse_api_response (pyTrim content)
    ⟨e.id, e.title, e.type, e.description, parsed.1, parsed.2.1, "groq",
      parsed.2.2, t⟩

/-! ### GPUNLIValidator (local NLI scorer) -/

/-- The inner loop of `GPUNLIValidator.validate_entity`: maximum entailment
probability of `sentence` against the first 3 source texts, each truncated to
1000 characters, starting from `max_entailment = 0.0`. -/
def max_entailment (entail : String → String → ℚ) (source_texts : List String)
    (sentence : String) : ℚ :=
  (source_texts.take 3).foldl (fun m src => max m (entail (src.take 1000) sentence)) 0

/-- Model of `description.split(chr(46))` with per-piece `strip()`, keeping non-empty
pieces (the `sentences` list of the NLI scorer). -/
def nli_sentences (description : String) : List String :=
  ((pySplitChar '.' description).map pyTrim).filter (fun s => s ≠ "")

/-- The sentences actually scored: the loop `continue`s on sentences of
length < 10. -/
def nli_qualifying (description : String) : List String :=
  (nli_sentences description).filter (fun s => ¬ s.length < 10)

/-- The `contradiction_scores` list: per qualifying sentence,
`1.0 - max_entailment`. -/
def contradiction_scores (entail : String → String → ℚ)
    (source_texts : List String) (description : String) : List ℚ :=
  (nli_qualifying description).map (fun s => 1 - max_entailment entail source_texts s)

/-- Model of `GPUNLIValidator.validate_entity`. -/
def gpu_nli_validate_entity (entail : String → String → ℚ) (corpus : Corpus)
    (e : Entity) (t : ℚ) : ValidationResult :=
  let source_texts := get_source_texts corpus e
  if source_texts.isEmpty then
    ⟨e.id, e.title, e.type, e.description, 0, false, "gpu_nli",
      ["No source texts available"], t⟩
  else
    let scores := contradiction_scores entail source_texts e.description
    let confidence : ℚ := if ¬ scores.isEmpty then scores.sum / scores.length else 0
    let is_hallucinated := decide (confidence > 1/2)
    let issues :=
      if is_hallucinated then
        ["Description not well-supported by source texts (avg entailment: " ++
          fmtRat2f (1 - confidence) ++ ")"]
      else []
    ⟨e.id, e.title, e.type, e.description, confidence, is_hallucinated,
      "gpu_nli", issues, t⟩

/-! ### HybridValidator (text matching plus Groq spot checks) -/

/-- The characters stripped from key terms:
`word.strip(chr(46) + ... )` in `HybridValidator.validate_entity`. -/
def stripSet : List Char := ['.', ',', ';', ':', '!', '?', '(', ')', '"', '\x27']

/-- The `key_terms` list comprehension: whitespace-split the lowercased
description, keep tokens of length > 3 that are purely alphabetic, and strip
surrounding punctuation from the kept tokens. -/
def key_terms (description : String) : List String :=
  ((pySplitWs (pyLower description)).filter
    (fun word => word.length > 3 ∧ pyIsAlpha word)).map (pyStrip stripSet)

/-- Model of `found_terms`: how many key terms occur verbatim in the combined source. -/
def found_terms (terms : List String) (combined_source : String) : ℕ :=
  (terms.filter (fun term => strContains combined_source term)).length

/-- Model of `coverage`: fraction of key terms found, `0.0` when there are none. -/
def coverage (description combined_source : String) : ℚ :=
  let kt := key_terms description
  if ¬ kt.isEmpty then (found_terms kt combined_source : ℚ) / kt.length else 0

/-- Model of `name_found`: the lowercased entity name occurs in the combined source. -/
def name_found (entity_name combined_source : String) : Bool :=
  strContains combined_source (pyLower entity_name)

/-- The `combined_source` value for an entity: lowercased space-join of its source
texts. -/
def hybrid_combined_source (corpus : Corpus) (e : Entity) : String :=
  pyLower (String.intercalate " " (get_source_texts corpus e))

/-- The hybrid scorer's coverage for an entity. -/
def hybrid_coverage (corpus : Corpus) (e : Entity) : ℚ :=
  coverage e.description (hybrid_combined_source corpus e)

/-- The hybrid scorer's `name_found` for an entity. -/
def hybrid_name_found (corpus : Corpus) (e : Entity) : Bool :=
  name_found e.title (hybrid_combined_source corpus e)

/-- The short prompt of `HybridValidator._groq_spot_check`. -/
def spot_prompt (name entity_type description : String)
    (source_texts : List String) : String :=
  let context := String.intercalate "\n\n---\n\n" (source_texts.take 3)
  "Quickly validate if this entity description is accurate:\n\nENTITY: " ++ name ++ " (" ++ entity_type ++ ")\nDESCRIPTION: " ++ description ++ "\n\nSOURCE TEXT:\n" ++ context ++ "\n\nIs the description supported? Reply with ONLY:\nVERDICT: [ACCURATE/HALLUCINATED]\nCONFIDENCE: [0.0-1.0]\nREASON: [one sentence]"

/-- Model of the spot-check method of `HybridValidator`. Note that both of its return paths
set `entity_id` to the empty string (the source comment reads
"Will be filled by caller") and `validation_time` to `0.0`. -/
def groq_spot_check (api : String → Except String (Option String))
    (name entity_type description : String)
    (source_texts : List String) : ValidationResult :=
  let prompt := spot_prompt name entity_type description source_texts
  match api prompt with
  | .error msg =>
      ⟨"", name, entity_type, description, 1/2, false, "hybrid_groq",
        ["API error: " ++ msg], 0⟩
  | .ok none =>
      ⟨"", name, entity_type, description, 1/2, false, "hybrid_groq",
        ["API error: API returned empty response"], 0⟩
  | .ok (some content) =>
      let answer := pyTrim content
      let is_hallucinated := strContains (pyUpper answer) "HALLUCINATED"
      let confidence : ℚ := if is_hallucinated then 7/10 else 3/10
      let issues := (pySplitChar '\n' answer).filterMap
        (fun line => if pyStartsWith line "REASON:" then some (pyTrim (line.drop 7)) else none)
      ⟨"", name, entity_type, description, confidence, is_hallucinated,
        "hybrid_groq", issues, 0⟩

/-- Model of `HybridValidator.validate_entity`. Here `groq_available` mirrors
`self.groq_available`; `api` is the spot-check oracle. -/
def hybrid_validate_entity (groq_available : Bool)
    (api : String → Except String (Option String)) (corpus : Corpus)
    (e : Entity) (t : ℚ) : ValidationResult :=
  let source_texts := get_source_texts corpus e
  if source_texts.isEmpty then
    ⟨e.id, e.title, e.type, e.description, 0, false, "hybrid",
      ["No source texts available"], t⟩
  else
    let cov := hybrid_coverage corpus e
    let nf := hybrid_name_found corpus e
    if cov > 7/10 ∧ nf then
      ⟨e.id, e.title, e.type, e.description, 1/10, false, "hybrid_text", [], t⟩
    else if cov < 3/10 ∨ ¬ nf then
      let issues :=
        (if ¬ nf then
          ["Entity name \x27" ++ e.title ++ "\x27 not found in source texts"]
         else []) ++
        (if cov < 3/10 then ["Low term coverage (" ++ fmtRatPct1 cov ++ ")"] else [])
      ⟨e.id, e.title, e.type, e.description, 8/10, true, "hybrid_text", issues, t⟩
    else if groq_available then
      let groq_result := groq_spot_check api e.title e.type e.description source_texts
      { groq_result with validation_time := t, method := "hybrid_groq" }
    else
      ⟨e.id, e.title, e.type, e.description, 1/2, decide (cov < 1/2),
        "hybrid_text", ["Uncertain (coverage: " ++ fmtRatPct1 cov ++ ")"], t⟩

/-! ### EntityValidator.validate_batch (batch runner) -/

/-- State of the batch loop: the in-memory `results` list and the current
contents of `validation_cache/validation_results.json` (`none` = file
absent). -/
structure BatchState where
  results : List ValidationResult
  saved : Option (List ValidationResult)
deriving DecidableEq

/-- One iteration of the batch loop over `entities_to_process`: call the
scorer (`.error` models a raised exception, which is caught, logged and
skipped), append the result on success, and save a checkpoint when
`len(results) % 10 == 0`. -/
def step_entity (scorer : Entity → Except String ValidationResult)
    (st : BatchState) (e : Entity) : BatchState :=
  match scorer e with
  | .error _ => st
  | .ok r =>
      let results := st.results ++ [r]
      if results.length % 10 = 0 then ⟨results, some results⟩
      else ⟨results, st.saved⟩

/-- Model of `pandas.DataFrame.head(n)` on a list: the first `n` rows for `n ≥ 0`,
all but the last `|n|` rows for negative `n`. -/
def pandas_head (n : ℤ) (l : List Entity) : List Entity :=
  if 0 ≤ n then l.take n.toNat else l.take (l.length - (-n).toNat)

/-- The resumed results: the checkpoint file's contents when
`resume and results_file.exists()`, else the empty list. -/
def resumed_results (resume : Bool) (ckpt : Option (List ValidationResult)) :
    List ValidationResult :=
  if resume then ckpt.getD [] else []

/-- Model of `processed_ids`: the entity ids of the resumed results (a set in the
source; only membership is used). -/
def processed_ids (resume : Bool) (ckpt : Option (List ValidationResult)) :
    List String :=
  (resumed_results resume ckpt).map (fun r => r.entity_id)

/-- The `entities_to_process` value before the limit: the entity rows whose id is not
in `processed_ids`, in corpus order. -/
def entities_not_processed (entities : List Entity) (ids : List String) :
    List Entity :=
  entities.filter (fun e => ¬ ids.contains e.id)

/-- Model of `if limit: entities_to_process = entities_to_process.head(limit)` —
note Python truthiness: a limit of `0` (like `None`) applies no truncation. -/
def apply_limit (limit : Option ℤ) (l : List Entity) : List Entity :=
  match limit with
  | none => l
  | some n => if n ≠ 0 then pandas_head n l else l

/-- The work queue of one batch run. -/
def batch_todo (entities : List Entity) (limit : Option ℤ) (resume : Bool)
    (ckpt : Option (List ValidationResult)) : List Entity :=
  apply_limit limit (entities_not_processed entities (processed_ids resume ckpt))

/-- Model of `EntityValidator.validate_batch` run to completion: loop over the work
queue from the resumed results, then do the unconditional final save.
The returned state's `results` is the method's return value and its `saved`
the checkpoint file's final contents. -/
def validate_batch (scorer : Entity → Except String ValidationResult)
    (entities : List Entity) (limit : Option ℤ) (resume : Bool)
    (ckpt : Option (List ValidationResult)) : BatchState :=
  let st := (batch_todo entities limit resume ckpt).foldl (step_entity scorer)
    ⟨resumed_results resume ckpt, ckpt⟩
  ⟨st.results, some st.results⟩

/-- A batch run interrupted after the first `k` loop iterations: no final
save is performed. -/
def validate_batch_interrupted (scorer : Entity → Except String ValidationResult)
    (entities : List Entity) (limit : Option ℤ) (resume : Bool)
    (ckpt : Option (List ValidationResult)) (k : ℕ) : BatchState :=
  ((batch_todo entities limit resume ckpt).take k).foldl (step_entity scorer)
    ⟨resumed_results resume ckpt, ckpt⟩

/-! ### Concrete fixtures used to evaluate the model at specific inputs -/

/-- A one-fragment corpus. -/
def demoCorpus : Corpus := [("t1", "alpha beta")]

/-- An entity whose description has term coverage 1/2 against `demoCorpus`
(key terms "alpha", "zzzz"; only "alpha" occurs) and whose name is found, so
the hybrid scorer takes the escalation path. -/
def demoEntity : Entity := ⟨"e1", "alpha", "T", "alpha zzzz", ["t1"]⟩

/-- A spot-check oracle that always replies ACCURATE. -/
def demoApi : String → Except String (Option String) :=
  fun _ => Except.ok (some "VERDICT: ACCURATE\nCONFIDENCE: 0.9\nREASON: fine")

/-- The hybrid scorer over the demo corpus, as a batch scorer. -/
def demoHybridScorer : Entity → Except String ValidationResult :=
  fun e => Except.ok (hybrid_validate_entity true demoApi demoCorpus e 0)

/-- A Groq scorer whose API is down: every entity gets the fail-open result
(each demo entity also has no source texts). Used to drive the batch loop. -/
def demoFailOpenScorer : Entity → Except String ValidationResult :=
  fun e => Except.ok (groq_validate_entity (fun _ => Except.error "down") [] e 0)

/-- A list of `n` distinct entities `e0, e1, …` with no source fragments. -/
def demoEntities (n : ℕ) : List Entity :=
  (List.range n).map (fun i => ⟨"e" ++ toString i, "n", "T", "d", []⟩)

/-- 7 pre-existing checkpoint results with ids `p0, …, p6` (as left by a
completed earlier run with limit 7). -/
def demoPriorResults : List ValidationResult :=
  (List.range 7).map (fun i => ⟨"p" ++ toString i, "", "", "", 0, false, "m", [], 0⟩)

/-- Invariant of the batch loop's checkpoint file on a fresh run: nothing is
saved below 10 accumulated results, and otherwise the save is the prefix of
the results at the last multiple of 10. -/
def saved_spec (st : BatchState) : Prop :=
  (st.saved = none ∧ st.results.length < 10) ∨
  ∃ m : ℕ, 1 ≤ m ∧ st.saved = some (st.results.take (10 * m)) ∧
    10 * m ≤ st.results.length ∧ st.results.length < 10 * m + 10

/-! ### Theorems -/

section Theorems

attribute [local semireducible] Rat.add Rat.mul Rat.inv Rat.sub Rat.ofScientific

/-- C1: for every entity whose resolved source-fragment list is empty, each of
the three scorer variants (Groq LLM-prompt, local NLI, hybrid) returns a
`ValidationResult` with `confidence = 0.0` and `is_hallucinated = false`,
regardless of the description, with the issue string
"No source texts available" recorded. -/
theorem no_source_texts_fail_open (api : String → Except String (Option String))
    (entail : String → String → ℚ) (groq_available : Bool) (corpus : Corpus)
    (e : Entity) (t₁ t₂ t₃ : ℚ) (h : get_source_texts corpus e = []) :
    ((groq_validate_entity api corpus e t₁).confidence = 0 ∧
      (groq_validate_entity api corpus e t₁).is_hallucinated = false ∧
      (groq_validate_entity api corpus e t₁).issues = ["No source texts available"]) ∧
    ((gpu_nli_validate_entity entail corpus e t₂).confidence = 0 ∧
      (gpu_nli_validate_entity entail corpus e t₂).is_hallucinated = false ∧
      (gpu_nli_validate_entity entail corpus e t₂).issues = ["No source texts available"]) ∧
    ((hybrid_validate_entity groq_available api corpus e t₃).confidence = 0 ∧
      (hybrid_validate_entity groq_available api corpus e t₃).is_hallucinated = false ∧
      (hybrid_validate_entity groq_available api corpus e t₃).issues =
        ["No source texts available"]) := by
  simp [groq_validate_entity, gpu_nli_validate_entity, hybrid_validate_entity, h]

/-- Witness for C1 at a concrete entity whose only text-unit id is missing
from the corpus. -/
theorem no_source_texts_fail_open_witness :
    ((groq_validate_entity (fun _ => Except.error "x") []
        ⟨"e1", "n", "T", "some description", ["missing"]⟩ 1).confidence = 0 ∧
      (groq_validate_entity (fun _ => Except.error "x") []
        ⟨"e1", "n", "T", "some description", ["missing"]⟩ 1).is_hallucinated = false ∧
      (groq_validate_entity (fun _ => Except.error "x") []
        ⟨"e1", "n", "T", "some description", ["missing"]⟩ 1).issues =
          ["No source texts available"]) ∧
    ((gpu_nli_validate_entity (fun _ _ => 0) []
        ⟨"e1", "n", "T", "some description", ["missing"]⟩ 2).confidence = 0 ∧
      (gpu_nli_validate_entity (fun _ _ => 0) []
        ⟨"e1", "n", "T", "some description", ["missing"]⟩ 2).is_hallucinated = false ∧
      (gpu_nli_validate_entity (fun _ _ => 0) []
        ⟨"e1", "n", "T", "some description", ["missing"]⟩ 2).issues =
          ["No source texts available"]) ∧
    ((hybrid_validate_entity true (fun _ => Except.error "x") []
        ⟨"e1", "n", "T", "some description", ["missing"]⟩ 3).confidence = 0 ∧
      (hybrid_validate_entity true (fun _ => Except.error "x") []
        ⟨"e1", "n", "T", "some description", ["missing"]⟩ 3).is_hallucinated = false ∧
      (hybrid_validate_entity true (fun _ => Except.error "x") []
        ⟨"e1", "n", "T", "some description", ["missing"]⟩ 3).issues =
          ["No source texts available"]) :=
  no_source_texts_fail_open (fun _ => Except.error "x") (fun _ _ => 0) true []
    ⟨"e1", "n", "T", "some description", ["missing"]⟩ 1 2 3 (by decide)

/-- C2: for every LLM reply, writing `s` for the parsed SUPPORTED flag and
`c` for the parsed raw confidence: if `s` and `c > 0.5` the reported
confidence is `0.1`; if `¬s` and `c < 0.5` it is `0.8`; otherwise it equals
`c`; and `is_hallucinated = ¬s` in every case, independent of `c`. -/
theorem parse_confidence_reconciliation (response : String) :
    ((parse_state response).supported = true →
      (parse_state response).raw_confidence > 1/2 →
      (parse_api_response response).1 = 1/10) ∧
    ((parse_state response).supported = true →
      ¬ (parse_state response).raw_confidence > 1/2 →
      (parse_api_response response).1 = (parse_state response).raw_confidence) ∧
    ((parse_state response).supported = false →
      (parse_state response).raw_confidence < 1/2 →
      (parse_api_response response).1 = 8/10) ∧
    ((parse_state response).supported = false →
      ¬ (parse_state response).raw_confidence < 1/2 →
      (parse_api_response response).1 = (parse_state response).raw_confidence) ∧
    (parse_api_response response).2.1 = ! (parse_state response).supported := by
  unfold parse_api_response
  refine ⟨?_, ?_, ?_, ?_, rfl⟩ <;> intro hs hc <;> simp [hs, hc] <;>
    intro hcontra <;> linarith

/-- Witness for C2 at the spec's example replies: (SUPPORTED=yes, raw 0.9)
reports 0.1 and not-hallucinated; (SUPPORTED=no, raw 0.2) reports 0.8 and
hallucinated; (SUPPORTED=yes, raw 0.3) keeps 0.3. -/
theorem parse_confidence_reconciliation_witness :
    (parse_api_response "SUPPORTED: YES\nCONFIDENCE: 0.9").1 = 1/10 ∧
    (parse_api_response "SUPPORTED: NO\nCONFIDENCE: 0.2").1 = 8/10 ∧
    (parse_api_response "SUPPORTED: YES\nCONFIDENCE: 0.3").1 =
      (parse_state "SUPPORTED: YES\nCONFIDENCE: 0.3").raw_confidence ∧
    (parse_api_response "SUPPORTED: NO\nCONFIDENCE: 0.2").2.1 =
      ! (parse_state "SUPPORTED: NO\nCONFIDENCE: 0.2").supported :=
  ⟨(parse_confidence_reconciliation "SUPPORTED: YES\nCONFIDENCE: 0.9").1
      (by decide) (by decide),
    (parse_confidence_reconciliation "SUPPORTED: NO\nCONFIDENCE: 0.2").2.2.1
      (by decide) (by decide),
    (parse_confidence_reconciliation "SUPPORTED: YES\nCONFIDENCE: 0.3").2.1
      (by decide) (by decide),
    (parse_confidence_reconciliation "SUPPORTED: NO\nCONFIDENCE: 0.2").2.2.2.2⟩

/-- C3: for every entity with at least one source fragment, the hybrid
scorer's outcome follows the decision table on `(coverage, name_found)`,
evaluated in order: coverage > 0.7 and the name found gives 0.1 / not
hallucinated; coverage < 0.3 or the name missing gives 0.8 / hallucinated;
in the remaining band with no LLM configured it gives confidence 0.5 and
`is_hallucinated = (coverage < 0.5)`. -/
theorem hybrid_decision_table (groq_available : Bool)
    (api : String → Except String (Option String)) (corpus : Corpus)
    (e : Entity) (t : ℚ) (h : get_source_texts corpus e ≠ []) :
    (hybrid_coverage corpus e > 7/10 ∧ hybrid_name_found corpus e = true →
      (hybrid_validate_entity groq_available api corpus e t).confidence = 1/10 ∧
      (hybrid_validate_entity groq_available api corpus e t).is_hallucinated = false) ∧
    (hybrid_coverage corpus e < 3/10 ∨ hybrid_name_found corpus e = false →
      (hybrid_validate_entity groq_available api corpus e t).confidence = 8/10 ∧
      (hybrid_validate_entity groq_available api corpus e t).is_hallucinated = true) ∧
    (groq_available = false →
      ¬ (hybrid_coverage corpus e > 7/10 ∧ hybrid_name_found corpus e = true) →
      ¬ (hybrid_coverage corpus e < 3/10 ∨ hybrid_name_found corpus e = false) →
      (hybrid_validate_entity groq_available api corpus e t).confidence = 1/2 ∧
      (hybrid_validate_entity groq_available api corpus e t).is_hallucinated =
        decide (hybrid_coverage corpus e < 1/2)) := by
  have hne : (get_source_texts corpus e).isEmpty = false := by
    simpa [List.isEmpty_iff] using h
  refine ⟨?_, ?_, ?_⟩
  · rintro ⟨h1, h2⟩
    simp [hybrid_validate_entity, hne, h1, h2]
  · intro h2
    have hf1 : ¬ (hybrid_coverage corpus e > 7/10 ∧ hybrid_name_found corpus e = true) := by
      rcases h2 with h2 | h2
      · exact fun hc => absurd hc.1 (by linarith)
      · exact fun hc => by simp [h2] at hc
    simp [hybrid_validate_entity, hne, hf1, h2]
  · intro hg hn1 hn2
    simp [hybrid_validate_entity, hne, hn1, hn2, hg]

/-- Witness for C3: a concrete entity for each of the three rows of the
decision table. -/
theorem hybrid_decision_table_witness :
    ((hybrid_validate_entity true (fun _ => Except.error "x")
        [("t1", "alpha beta gamma")] ⟨"e1", "alpha", "T", "alpha beta", ["t1"]⟩ 1).confidence
        = 1/10 ∧
      (hybrid_validate_entity true (fun _ => Except.error "x")
        [("t1", "alpha beta gamma")] ⟨"e1", "alpha", "T", "alpha beta", ["t1"]⟩ 1).is_hallucinated
        = false) ∧
    ((hybrid_validate_entity true (fun _ => Except.error "x")
        [("t1", "alpha beta")] ⟨"e2", "omega", "T", "delta epsilon", ["t1"]⟩ 2).confidence
        = 8/10 ∧
      (hybrid_validate_entity true (fun _ => Except.error "x")
        [("t1", "alpha beta")] ⟨"e2", "omega", "T", "delta epsilon", ["t1"]⟩ 2).is_hallucinated
        = true) ∧
    ((hybrid_validate_entity false (fun _ => Except.error "x")
        [("t1", "alpha beta")] ⟨"e3", "alpha", "T", "alpha zzzz", ["t1"]⟩ 3).confidence
        = 1/2 ∧
      (hybrid_validate_entity false (fun _ => Except.error "x")
        [("t1", "alpha beta")] ⟨"e3", "alpha", "T", "alpha zzzz", ["t1"]⟩ 3).is_hallucinated
        = decide (hybrid_coverage [("t1", "alpha beta")] ⟨"e3", "alpha", "T", "alpha zzzz", ["t1"]⟩ < 1/2)) :=
  ⟨(hybrid_decision_table true (fun _ => Except.error "x") [("t1", "alpha beta gamma")]
      ⟨"e1", "alpha", "T", "alpha beta", ["t1"]⟩ 1 (by decide)).1 (by decide),
    (hybrid_decision_table true (fun _ => Except.error "x") [("t1", "alpha beta")]
      ⟨"e2", "omega", "T", "delta epsilon", ["t1"]⟩ 2 (by decide)).2.1 (by decide),
    (hybrid_decision_table false (fun _ => Except.error "x") [("t1", "alpha beta")]
      ⟨"e3", "alpha", "T", "alpha zzzz", ["t1"]⟩ 3 (by decide)).2.2 rfl
      (by decide) (by decide)⟩

/-- C9: for the NLI scorer on an entity with at least one source fragment,
the per-sentence score of each qualifying sentence (length ≥ 10 after
splitting) is 1 minus the maximum entailment over at most 3 truncated
fragments; the confidence is the arithmetic mean of these scores (0.0 when no
sentence qualifies); `is_hallucinated` holds iff confidence > 0.5; hence zero
qualifying sentences, or full entailment of every qualifying sentence, give
confidence 0.0 and `is_hallucinated = false`. -/
theorem nli_scoring (entail : String → String → ℚ) (corpus : Corpus)
    (e : Entity) (t : ℚ) (h : get_source_texts corpus e ≠ []) :
    (contradiction_scores entail (get_source_texts corpus e) e.description =
      (nli_qualifying e.description).map
        (fun s => 1 - max_entailment entail (get_source_texts corpus e) s)) ∧
    ((gpu_nli_validate_entity entail corpus e t).confidence =
      if nli_qualifying e.description = [] then 0
      else (contradiction_scores entail (get_source_texts corpus e) e.description).sum /
        ((nli_qualifying e.description).length : ℚ)) ∧
    ((gpu_nli_validate_entity entail corpus e t).is_hallucinated =
      decide ((gpu_nli_validate_entity entail corpus e t).confidence > 1/2)) ∧
    (nli_qualifying e.description = [] →
      (gpu_nli_validate_entity entail corpus e t).confidence = 0 ∧
      (gpu_nli_validate_entity entail corpus e t).is_hallucinated = false) ∧
    ((∀ s ∈ nli_qualifying e.description,
        max_entailment entail (get_source_texts corpus e) s = 1) →
      (gpu_nli_validate_entity entail corpus e t).confidence = 0 ∧
      (gpu_nli_validate_entity entail corpus e t).is_hallucinated = false) := by
  have hne : (get_source_texts corpus e).isEmpty = false := by
    simpa [List.isEmpty_iff] using h
  have hconf : (gpu_nli_validate_entity entail corpus e t).confidence =
      if nli_qualifying e.description = [] then 0
      else (contradiction_scores entail (get_source_texts corpus e) e.description).sum /
        ((nli_qualifying e.description).length : ℚ) := by
    by_cases hq : nli_qualifying e.description = []
    · simp [gpu_nli_validate_entity, hne, hq, contradiction_scores]
    · have hs : ¬ (contradiction_scores entail (get_source_texts corpus e)
          e.description).isEmpty = true := by
        simp [contradiction_scores, List.isEmpty_iff, hq]
      simp [gpu_nli_validate_entity, hne, hq, hs, contradiction_scores]
  have hhall : (gpu_nli_validate_entity entail corpus e t).is_hallucinated =
      decide ((gpu_nli_validate_entity entail corpus e t).confidence > 1/2) := by
    by_cases hs : (contradiction_scores entail (get_source_texts corpus e)
        e.description).isEmpty = true
    · simp [gpu_nli_validate_entity, hne, hs]
    · simp [gpu_nli_validate_entity, hne, hs]
  refine ⟨rfl, hconf, hhall, ?_, ?_⟩
  · intro hq
    have hc0 : (gpu_nli_validate_entity entail corpus e t).confidence = 0 := by
      rw [hconf, if_pos hq]
    refine ⟨hc0, ?_⟩
    rw [hhall, hc0]
    norm_num
  · intro hall
    have hsum : (contradiction_scores entail (get_source_texts corpus e)
        e.description).sum = 0 := by
      apply List.sum_eq_zero
      intro x hx
      simp only [contradiction_scores, List.mem_map] at hx
      obtain ⟨s, hs, hxeq⟩ := hx
      rw [← hxeq, hall s hs]
      ring
    have hc0 : (gpu_nli_validate_entity entail corpus e t).confidence = 0 := by
      rw [hconf]
      by_cases hq : nli_qualifying e.description = []
      · rw [if_pos hq]
      · rw [if_neg hq, hsum, zero_div]
    refine ⟨hc0, ?_⟩
    rw [hhall, hc0]
    norm_num

/-- Witness for C9: a concrete entity whose description has one qualifying
sentence and one too-short fragment, under a constant fully-entailing oracle,
gives confidence 0 and is not flagged. -/
theorem nli_scoring_witness :
    (gpu_nli_validate_entity (fun _ _ => 1) [("t1", "some source text")]
      ⟨"e1", "n", "T", "a sufficiently long sentence. shrt.", ["t1"]⟩ 4).confidence = 0 ∧
    (gpu_nli_validate_entity (fun _ _ => 1) [("t1", "some source text")]
      ⟨"e1", "n", "T", "a sufficiently long sentence. shrt.", ["t1"]⟩ 4).is_hallucinated = false :=
  (nli_scoring (fun _ _ => 1) [("t1", "some source text")]
    ⟨"e1", "n", "T", "a sufficiently long sentence. shrt.", ["t1"]⟩ 4
    (by decide)).2.2.2.2 (by decide)

/-- C10: in the hybrid scorer's escalation path, for every non-empty LLM
reply the result is flagged hallucinated with confidence 0.7 iff the
substring "HALLUCINATED" occurs case-insensitively anywhere in the whole
reply text — in particular a reply whose VERDICT line reads ACCURATE but
whose REASON line contains "hallucinated" is flagged. -/
theorem spot_check_scans_whole_reply :
    (∀ (api : String → Except String (Option String))
        (name entity_type description content : String) (sts : List String),
      api (spot_prompt name entity_type description sts) = Except.ok (some content) →
      pyTrim content ≠ "" →
      (groq_spot_check api name entity_type description sts).is_hallucinated =
        strContains (pyUpper (pyTrim content)) "HALLUCINATED" ∧
      (groq_spot_check api name entity_type description sts).confidence =
        (if strContains (pyUpper (pyTrim content)) "HALLUCINATED" then (7:ℚ)/10 else 3/10)) ∧
    ((groq_spot_check
        (fun _ => Except.ok (some "VERDICT: ACCURATE\nCONFIDENCE: 0.2\nREASON: it sounds hallucinated"))
        "n" "T" "d" ["src"]).is_hallucinated = true ∧
      (groq_spot_check
        (fun _ => Except.ok (some "VERDICT: ACCURATE\nCONFIDENCE: 0.2\nREASON: it sounds hallucinated"))
        "n" "T" "d" ["src"]).confidence = 7/10) := by
  constructor
  · intro api name entity_type description content sts hapi _
    simp [groq_spot_check, hapi]
  · decide

/-- Witness for C10 at a concrete reply whose only occurrence of the word is
on the REASON line. -/
theorem spot_check_scans_whole_reply_witness :
    (groq_spot_check
        (fun _ => Except.ok (some "VERDICT: ACCURATE\nCONFIDENCE: 0.2\nREASON: not hallucinated"))
        "n" "T" "d" ["src"]).is_hallucinated =
      strContains (pyUpper (pyTrim "VERDICT: ACCURATE\nCONFIDENCE: 0.2\nREASON: not hallucinated"))
        "HALLUCINATED" ∧
    (groq_spot_check
        (fun _ => Except.ok (some "VERDICT: ACCURATE\nCONFIDENCE: 0.2\nREASON: not hallucinated"))
        "n" "T" "d" ["src"]).confidence =
      (if strContains (pyUpper (pyTrim "VERDICT: ACCURATE\nCONFIDENCE: 0.2\nREASON: not hallucinated"))
          "HALLUCINATED" then (7:ℚ)/10 else 3/10) :=
  spot_check_scans_whole_reply.1
    (fun _ => Except.ok (some "VERDICT: ACCURATE\nCONFIDENCE: 0.2\nREASON: not hallucinated"))
    "n" "T" "d" "VERDICT: ACCURATE\nCONFIDENCE: 0.2\nREASON: not hallucinated" ["src"]
    rfl (by decide)

/-- C4 counterexample: a reply whose SUPPORTED flag is NO and whose raw
CONFIDENCE is the out-of-range literal 3.7 is passed through unclamped, so
the produced `ValidationResult` has confidence 3.7 ∉ [0, 1]. -/
theorem confidence_unit_range_counterexample :
    (groq_validate_entity (fun _ => Except.ok (some "SUPPORTED: NO\nCONFIDENCE: 3.7"))
      [("t1", "source text")] ⟨"e1", "n", "T", "d", ["t1"]⟩ 0).confidence = 37/10 ∧
    ¬ ((groq_validate_entity (fun _ => Except.ok (some "SUPPORTED: NO\nCONFIDENCE: 3.7"))
      [("t1", "source text")] ⟨"e1", "n", "T", "d", ["t1"]⟩ 0).confidence ≤ 1) := by
  decide

/-- Bounds for the reconciled confidence when the parsed raw confidence is
itself in [0, 1]. -/
theorem parse_api_response_conf_bounds (response : String)
    (h0 : 0 ≤ (parse_state response).raw_confidence)
    (h1 : (parse_state response).raw_confidence ≤ 1) :
    0 ≤ (parse_api_response response).1 ∧ (parse_api_response response).1 ≤ 1 := by
  simp only [parse_api_response]
  split_ifs <;> constructor <;> first | assumption | norm_num

/-- The seed bounds the fold: `a ≤ List.foldl max a l`. -/
theorem le_foldl_max (l : List ℚ) (a : ℚ) : a ≤ l.foldl max a := by
  induction l generalizing a with
  | nil => exact le_refl a
  | cons x rest ih => exact le_trans (le_max_left a x) (ih (max a x))

/-- Bound `List.foldl max a l ≤ 1` when the seed and all elements are ≤ 1. -/
theorem foldl_max_le_one (l : List ℚ) (a : ℚ) (ha : a ≤ 1)
    (h : ∀ x ∈ l, x ≤ 1) : l.foldl max a ≤ 1 := by
  induction l generalizing a with
  | nil => exact ha
  | cons x rest ih =>
      exact ih (max a x) (max_le ha (h x (List.mem_cons_self x rest)))
        (fun y hy => h y (List.mem_cons_of_mem x hy))

/-- Value `max_entailment` lies in [0, 1] when the oracle's outputs do. -/
theorem max_entailment_bounds (entail : String → String → ℚ)
    (sts : List String) (s : String)
    (h : ∀ p hyp, 0 ≤ entail p hyp ∧ entail p hyp ≤ 1) :
    0 ≤ max_entailment entail sts s ∧ max_entailment entail sts s ≤ 1 := by
  have hrw : max_entailment entail sts s =
      ((sts.take 3).map (fun src => entail (src.take 1000) s)).foldl max 0 := by
    unfold max_entailment
    rw [List.foldl_map]
  rw [hrw]
  refine ⟨le_foldl_max _ 0, foldl_max_le_one _ 0 (by norm_num) ?_⟩
  intro x hx
  obtain ⟨src, hsrc, hxeq⟩ := List.mem_map.mp hx
  rw [← hxeq]
  exact (h (src.take 1000) s).2

/-- Bounds for the spot-check confidence: one of 0.5, 0.7, 0.3. -/
theorem groq_spot_check_conf_bounds (api : String → Except String (Option String))
    (name entity_type description : String) (sts : List String) :
    0 ≤ (groq_spot_check api name entity_type description sts).confidence ∧
    (groq_spot_check api name entity_type description sts).confidence ≤ 1 := by
  unfold groq_spot_check
  dsimp only
  cases hapi : api (spot_prompt name entity_type description sts) with
  | error msg => norm_num
  | ok oc =>
      cases oc with
      | none => norm_num
      | some content =>
          dsimp only
          split_ifs <;> constructor <;> norm_num

/-- C4 (amended): every ValidationResult's confidence lies in [0, 1], with
the provisos the counterexample forces: unconditionally for the hybrid
scorer; for the NLI scorer whenever the entailment oracle returns
probabilities in [0, 1] (as a softmax does); for the LLM-prompt scorer
whenever the raw CONFIDENCE parsed from the reply lies in [0, 1] (in
particular whenever the reply is erroneous, absent or unparsable). -/
theorem confidence_in_unit_interval :
    (∀ (api : String → Except String (Option String)) (corpus : Corpus)
        (e : Entity) (t : ℚ),
      (∀ prompt content, api prompt = Except.ok (some content) →
        0 ≤ (parse_state (pyTrim content)).raw_confidence ∧
        (parse_state (pyTrim content)).raw_confidence ≤ 1) →
      0 ≤ (groq_validate_entity api corpus e t).confidence ∧
      (groq_validate_entity api corpus e t).confidence ≤ 1) ∧
    (∀ (entail : String → String → ℚ) (corpus : Corpus) (e : Entity) (t : ℚ),
      (∀ p s, 0 ≤ entail p s ∧ entail p s ≤ 1) →
      0 ≤ (gpu_nli_validate_entity entail corpus e t).confidence ∧
      (gpu_nli_validate_entity entail corpus e t).confidence ≤ 1) ∧
    (∀ (groq_available : Bool) (api : String → Except String (Option String))
        (corpus : Corpus) (e : Entity) (t : ℚ),
      0 ≤ (hybrid_validate_entity groq_available api corpus e t).confidence ∧
      (hybrid_validate_entity groq_available api corpus e t).confidence ≤ 1) := by
  refine ⟨?_, ?_, ?_⟩
  · intro api corpus e t hapi
    unfold groq_validate_entity
    dsimp only
    by_cases hs : (get_source_texts corpus e).isEmpty
    · rw [if_pos hs]
      norm_num
    · rw [if_neg hs]
      dsimp only
      cases hresp : api (build_validation_prompt e.title e.type e.description
          (get_source_texts corpus e)) with
      | error msg => norm_num
      | ok oc =>
          cases oc with
          | none => norm_num
          | some content =>
              exact parse_api_response_conf_bounds (pyTrim content)
                (hapi _ content hresp).1 (hapi _ content hresp).2
  · intro entail corpus e t hent
    unfold gpu_nli_validate_entity
    dsimp only
    by_cases hs : (get_source_texts corpus e).isEmpty
    · rw [if_pos hs]
      norm_num
    · rw [if_neg hs]
      dsimp only
      have hmem : ∀ x ∈ contradiction_scores entail (get_source_texts corpus e)
          e.description, 0 ≤ x ∧ x ≤ 1 := by
        intro x hx
        simp only [contradiction_scores, List.mem_map] at hx
        obtain ⟨s, hsq, hxeq⟩ := hx
        have hb := max_entailment_bounds entail (get_source_texts corpus e) s hent
        constructor
        · rw [← hxeq]; linarith [hb.2]
        · rw [← hxeq]; linarith [hb.1]
      by_cases hsc : (contradiction_scores entail (get_source_texts corpus e)
          e.description).isEmpty
      · simp [hsc]
      · simp only [hsc]
        have hnil : contradiction_scores entail (get_source_texts corpus e)
            e.description ≠ [] := by
          simpa [List.isEmpty_iff] using hsc
        have hlen : 0 < ((contradiction_scores entail (get_source_texts corpus e)
            e.description).length : ℚ) := by
          have := List.length_pos.mpr hnil
          exact_mod_cast this
        have hsum0 : 0 ≤ (contradiction_scores entail (get_source_texts corpus e)
            e.description).sum :=
          List.sum_nonneg (fun x hx => (hmem x hx).1)
        have hsum1 : (contradiction_scores entail (get_source_texts corpus e)
            e.description).sum ≤ ((contradiction_scores entail
              (get_source_texts corpus e) e.description).length : ℚ) := by
          have h1 := List.sum_le_card_nsmul
            (contradiction_scores entail (get_source_texts corpus e) e.description)
            1 (fun x hx => (hmem x hx).2)
          simpa [nsmul_eq_mul] using h1
        constructor
        · simp only [Bool.not_eq_true, if_true]
          positivity
        · have : (contradiction_scores entail (get_source_texts corpus e)
              e.description).sum / ((contradiction_scores entail
                (get_source_texts corpus e) e.description).length : ℚ) ≤ 1 :=
            (div_le_one hlen).mpr hsum1
          simpa using this
  · intro groq_available api corpus e t
    unfold hybrid_validate_entity
    dsimp only
    split_ifs <;>
      first
        | exact groq_spot_check_conf_bounds api e.title e.type e.description
            (get_source_texts corpus e)
        | norm_num

/-- Witness for C4 (amended), at the NLI scorer with a constant ½-entailment
oracle on a concrete entity. -/
theorem confidence_in_unit_interval_witness :
    0 ≤ (gpu_nli_validate_entity (fun _ _ => 1/2) [("t1", "some source text")]
      ⟨"e1", "n", "T", "a sufficiently long sentence.", ["t1"]⟩ 1).confidence ∧
    (gpu_nli_validate_entity (fun _ _ => 1/2) [("t1", "some source text")]
      ⟨"e1", "n", "T", "a sufficiently long sentence.", ["t1"]⟩ 1).confidence ≤ 1 :=
  confidence_in_unit_interval.2.1 (fun _ _ => 1/2) [("t1", "some source text")]
    ⟨"e1", "n", "T", "a sufficiently long sentence.", ["t1"]⟩ 1
    (fun _ _ => by norm_num)

/-- One batch step preserves the fresh-run checkpoint invariant. -/
theorem saved_spec_step (scorer : Entity → Except String ValidationResult)
    (st : BatchState) (e : Entity) (h : saved_spec st) :
    saved_spec (step_entity scorer st e) := by
  unfold step_entity
  cases hsc : scorer e with
  | error msg => exact h
  | ok r =>
      dsimp only
      have hlen : (st.results ++ [r]).length = st.results.length + 1 := by simp
      by_cases hmod : (st.results ++ [r]).length % 10 = 0
      · rw [if_pos hmod]
        unfold saved_spec
        dsimp only
        right
        refine ⟨(st.results ++ [r]).length / 10, by omega, ?_, by omega, by omega⟩
        have h10 : 10 * ((st.results ++ [r]).length / 10) = (st.results ++ [r]).length := by
          omega
        rw [h10, List.take_length]
      · rw [if_neg hmod]
        unfold saved_spec at h ⊢
        dsimp only
        rcases h with ⟨hsv, hlt⟩ | ⟨m, hm, hsv, hle, hlt⟩
        · exact Or.inl ⟨hsv, by omega⟩
        · right
          refine ⟨m, hm, ?_, by omega, by omega⟩
          rw [hsv, List.take_append_of_le_length hle]

/-- The batch loop preserves the fresh-run checkpoint invariant. -/
theorem saved_spec_foldl (scorer : Entity → Except String ValidationResult)
    (todo : List Entity) (st0 : BatchState) (h : saved_spec st0) :
    saved_spec (todo.foldl (step_entity scorer) st0) := by
  induction todo generalizing st0 with
  | nil => exact h
  | cons e rest ih => exact ih _ (saved_spec_step scorer st0 e h)

/-- C8 (amended): a checkpoint of the full accumulated collection is written
exactly after each successfully processed entity that makes the accumulated
result count (resumed results included) a multiple of 10, plus once
unconditionally when the run ends; on a fresh batch this is every 10
processed entities of the run, so interrupting a fresh batch after exactly 23
successfully processed entities leaves a checkpoint of exactly 20 results. -/
theorem checkpoint_save_rule (scorer : Entity → Except String ValidationResult) :
    (∀ (st : BatchState) (e : Entity) (r : ValidationResult),
      scorer e = Except.ok r →
      (step_entity scorer st e).results = st.results ++ [r] ∧
      (step_entity scorer st e).saved =
        (if (st.results ++ [r]).length % 10 = 0 then some (st.results ++ [r])
         else st.saved)) ∧
    (∀ entities limit resume ckpt,
      (validate_batch scorer entities limit resume ckpt).saved =
        some (validate_batch scorer entities limit resume ckpt).results) ∧
    (∀ (entities : List Entity) (k : ℕ),
      (validate_batch_interrupted scorer entities none false none k).results.length = 23 →
      (validate_batch_interrupted scorer entities none false none k).saved =
        some ((validate_batch_interrupted scorer entities none false none
          k).results.take 20) ∧
      ((validate_batch_interrupted scorer entities none false none
        k).results.take 20).length = 20) := by
  refine ⟨?_, ?_, ?_⟩
  · intro st e r hsc
    unfold step_entity
    rw [hsc]
    dsimp only
    by_cases hmod : (st.results ++ [r]).length % 10 = 0
    · rw [if_pos hmod, if_pos hmod]
      exact ⟨rfl, rfl⟩
    · rw [if_neg hmod, if_neg hmod]
      exact ⟨rfl, rfl⟩
  · intro entities limit resume ckpt
    rfl
  · intro entities k h23
    have heq : validate_batch_interrupted scorer entities none false none k =
        ((batch_todo entities none false none).take k).foldl (step_entity scorer)
          ⟨[], none⟩ := rfl
    have hinv := saved_spec_foldl scorer ((batch_todo entities none false none).take k)
      ⟨[], none⟩ (Or.inl ⟨rfl, by norm_num⟩)
    rw [← heq] at hinv
    rcases hinv with ⟨hsv, hlt⟩ | ⟨m, hm, hsv, hle, hlt⟩
    · rw [h23] at hlt
      omega
    · rw [h23] at hle hlt
      have hm2 : m = 2 := by omega
      rw [hm2] at hsv
      refine ⟨hsv, ?_⟩
      rw [List.length_take, h23]
      omega

/-- Witness for C8 (amended): a fresh batch over 23 fail-open entities,
interrupted after 23 steps, leaves a 20-result checkpoint. -/
theorem checkpoint_save_rule_witness :
    (validate_batch_interrupted demoFailOpenScorer (demoEntities 23) none false
      none 23).saved =
      some ((validate_batch_interrupted demoFailOpenScorer (demoEntities 23) none
        false none 23).results.take 20) ∧
    ((validate_batch_interrupted demoFailOpenScorer (demoEntities 23) none false
      none 23).results.take 20).length = 20 :=
  (checkpoint_save_rule demoFailOpenScorer).2.2 (demoEntities 23) 23 (by decide)

/-- C8 counterexample: on a resumed run with 7 prior checkpointed results,
after 10 successfully processed entities of the run the checkpoint holds the
10-result prefix written at the 3rd entity of the run, not the accumulated 17
results — so the persist points are not "every 10 entities of that run". -/
theorem checkpoint_every_ten_of_run_counterexample :
    (validate_batch_interrupted demoFailOpenScorer (demoEntities 10) none true
      (some demoPriorResults) 10).results.length = 17 ∧
    ((validate_batch_interrupted demoFailOpenScorer (demoEntities 10) none true
      (some demoPriorResults) 10).saved.map List.length) = some 10 ∧
    (validate_batch_interrupted demoFailOpenScorer (demoEntities 10) none true
      (some demoPriorResults) 10).saved ≠
      some (validate_batch_interrupted demoFailOpenScorer (demoEntities 10) none
        true (some demoPriorResults) 10).results := by
  decide

/-- C7 (amended): for every limit N ≥ 1, the batch runner processes at most N
entities, and they are the first N of the not-yet-processed subsequence in
corpus order (the limit is applied after the resume filter). A limit of 0 is
falsy in `if limit:` and applies no truncation. -/
theorem limit_applies_post_filter (entities : List Entity) (resume : Bool)
    (ckpt : Option (List ValidationResult)) (N : ℤ) (hN : 1 ≤ N) :
    batch_todo entities (some N) resume ckpt =
      (entities_not_processed entities (processed_ids resume ckpt)).take N.toNat ∧
    (batch_todo entities (some N) resume ckpt).length ≤ N.toNat := by
  have hnz : N ≠ 0 := by omega
  have h0 : 0 ≤ N := by omega
  have h1 : batch_todo entities (some N) resume ckpt =
      (entities_not_processed entities (processed_ids resume ckpt)).take N.toNat := by
    simp [batch_todo, apply_limit, hnz, pandas_head, h0]
  refine ⟨h1, ?_⟩
  rw [h1]
  exact List.length_take_le _ _

/-- Witness for C7 (amended) at a one-entity collection with limit 1. -/
theorem limit_applies_post_filter_witness :
    batch_todo [demoEntity] (some 1) false none =
      (entities_not_processed [demoEntity] (processed_ids false none)).take
        (1 : ℤ).toNat ∧
    (batch_todo [demoEntity] (some 1) false none).length ≤ (1 : ℤ).toNat :=
  limit_applies_post_filter [demoEntity] false none 1 (by norm_num)

/-- C7 counterexample: with limit N = 0 the runner processes 1 > 0 entities
of a one-entity collection, because `if limit:` treats 0 as "no limit". -/
theorem limit_zero_counterexample :
    (batch_todo [demoEntity] (some 0) false none).length = 1 ∧
    ¬ ((batch_todo [demoEntity] (some 0) false none).length ≤ 0) := by
  decide

/-- C5: evaluation at the failing input. A completed run over one entity that
took the hybrid escalation path stores its result under `entity_id = ""`
(the spot check's placeholder is never replaced), so re-running with
resume=true finds the entity id absent from the checkpoint, processes it
again, and produces a 2-element collection instead of an identical one. -/
theorem resume_reprocesses_escalated_entity :
    (validate_batch demoHybridScorer [demoEntity] none false none).results.length = 1 ∧
    ((validate_batch demoHybridScorer [demoEntity] none false none).results.map
      (fun r => r.entity_id)) = [""] ∧
    batch_todo [demoEntity] none true
      (validate_batch demoHybridScorer [demoEntity] none false none).saved =
      [demoEntity] ∧
    ((validate_batch demoHybridScorer [demoEntity] none true
      (validate_batch demoHybridScorer [demoEntity] none false
        none).saved).results).length = 2 := by
  decide

/-- C6: evaluation at the failing input. On the hybrid escalation path the
returned result copies name, type and description and has the two post-hoc
fields `method` and `validation_time` overwritten, but `entity_id` is the
spot check's empty placeholder, not the input's identifier "e1". -/
theorem escalation_result_drops_entity_id :
    hybrid_validate_entity true demoApi demoCorpus demoEntity 5 =
      ⟨"", "alpha", "T", "alpha zzzz", 3/10, false, "hybrid_groq", ["fine"], 5⟩ ∧
    demoEntity.id = "e1" := by
  decide

end Theorems

end GraFlow
